import Mathlib

/-!
# Verification of the `dovwms` soil/elevation WMS client library

This file gives a shallow embedding of the parsing core and the client
orchestration of the `dovwms` Python library and proves properties of it.

Embedding conventions:
* A Python `dict` coming from a parsed JSON object is modelled as an
  insertion-ordered association list `List (String × ℚ)`; JSON numeric
  values are modelled as exact rationals.
* Python exceptions raised by the parsing code (`json.loads` failure,
  `KeyError`, `IndexError`, `TypeError`) are modelled by an error type
  `PyErr`, and fallible code returns `Except PyErr _`.
* `float(...)` applied to a decimal string is modelled exactly over ℚ
  (sign, integer/fractional digits, optional exponent); the binary
  rounding of IEEE doubles, underscore separators and the `inf`/`nan`
  spellings are outside the modelled domain (no claim touches them).
* Network effects are modelled by environments recording the advertised
  layer set of the connected service and the outcome (raised exception or
  returned content) of each upstream call.
-/

namespace Dovwms

/-- A `properties` JSON object of one WMS feature: insertion-ordered
key/value pairs, as produced by Python's `json.loads` (keys are unique in
a real response). -/
abbrev Props := List (String × ℚ)

/-- One entry of the `features` list of a GetFeatureInfo response: its
`properties` member, `Option.none` when the feature carries no
`properties` key (`feature.get("properties")` yields `None`). -/
structure Feature where
  properties : Option Props
deriving DecidableEq

/-- A syntactically well-formed GetFeatureInfo JSON document, reduced to
the members the parser reads: `json_data.get("features", [])`.  A
document without a `features` member is represented by `features = []`,
exactly what the `.get` default produces. -/
structure Payload where
  features : List Feature
deriving DecidableEq

/-- Input of `DOVClient._parse_texture_response`: either a string that
`json.loads` rejects (`malformed`) or the parsed document. -/
inductive TexInput where
  | malformed
  | payload (json_data : Payload)
deriving DecidableEq

/-- The Python exceptions the texture parser can raise. -/
inductive PyErr where
  | jsonError
  | typeError
  | indexError
  | keyError (key : String)
deriving DecidableEq

/-- Per-content metadata record built by the parser:
`{"source": ..., "uncertainty": ...}`. -/
structure ContentMeta where
  source : String
  uncertainty : ℚ
deriving DecidableEq

/-- The `metadata` member of a produced layer dict. -/
structure LayerMetadata where
  sand_content : ContentMeta
  silt_content : ContentMeta
  clay_content : ContentMeta
deriving DecidableEq

/-- One layer dict produced by `_parse_texture_response`. -/
structure SoilLayer where
  name : String
  layer_top : ℕ
  layer_bottom : ℕ
  sand_content : ℚ
  silt_content : ℚ
  clay_content : ℚ
  metadata : LayerMetadata
deriving DecidableEq

/-- The parser's result dict `{"layers": [...]}`. -/
structure TextureResult where
  layers : List SoilLayer
deriving DecidableEq

/-- The fixed map from Dutch depth notation to
`(top_depth, bottom_depth, layer_name)` (`depth_mapping` in the source). -/
def depth_mapping : List (String × (ℕ × ℕ × String)) :=
  [("_0_-_10_cm", (0, 10, "Layer_0-10cm")),
   ("_10_-_30_cm", (10, 30, "Layer_10-30cm")),
   ("_30_-_60_cm", (30, 60, "Layer_30-60cm")),
   ("_60_-_100_cm", (60, 100, "Layer_60-100cm")),
   ("_100_-_150_cm", (100, 150, "Layer_100-150cm"))]

/-- The uncertainty companion of a depth key:
`f"{depth_key}_betrouwbaarheid"`. -/
def ciKey (depth_key : String) : String :=
  depth_key ++ "_betrouwbaarheid"

/-- Python's `s.endswith(suffix)`: `suffix` is a suffix of `s` (stated
over the underlying character lists, which the kernel can evaluate). -/
def pyEndsWith (s suffix : String) : Bool :=
  s.data.drop (s.data.length - suffix.data.length) == suffix.data

/-- `[k for k in properties[0] if not k.endswith("_betrouwbaarheid")]`:
the non-uncertainty keys of the first feature's property set, in
iteration (= insertion) order. -/
def depthKeys (p0 : Props) : List String :=
  (p0.map Prod.fst).filter (fun k => !pyEndsWith k "_betrouwbaarheid")

/-- `properties[i]` followed by subscripting the element with a key:
out-of-range raises `IndexError`; a `None` element raises `TypeError`
when subscripted. -/
def getFeatureProps (properties : List (Option Props)) (i : ℕ) :
    Except PyErr Props :=
  match properties[i]? with
  | Option.none => .error .indexError
  | some Option.none => .error .typeError
  | some (some p) => .ok p

/-- Python dict subscription `p[k]`: the stored value, or `KeyError`. -/
def getKey (p : Props) (k : String) : Except PyErr ℚ :=
  match p.lookup k with
  | some v => .ok v
  | Option.none => .error (.keyError k)

/-- The body of the `for depth_key in depth_keys` loop: build one layer
dict.  The evaluation order mirrors the source: clay value and its
uncertainty from `properties[0]`, silt from `properties[1]`, sand from
`properties[2]`, and only then the `depth_mapping[depth_key]` lookup. -/
def parseLayer (properties : List (Option Props)) (depth_key : String) :
    Except PyErr SoilLayer :=
  match getFeatureProps properties 0 with
  | .error e => .error e
  | .ok p0 =>
  match getKey p0 depth_key with
  | .error e => .error e
  | .ok clay_pct =>
  match getKey p0 (ciKey depth_key) with
  | .error e => .error e
  | .ok clay_unc =>
  match getFeatureProps properties 1 with
  | .error e => .error e
  | .ok p1 =>
  match getKey p1 depth_key with
  | .error e => .error e
  | .ok silt_pct =>
  match getKey p1 (ciKey depth_key) with
  | .error e => .error e
  | .ok silt_unc =>
  match getFeatureProps properties 2 with
  | .error e => .error e
  | .ok p2 =>
  match getKey p2 depth_key with
  | .error e => .error e
  | .ok sand_pct =>
  match getKey p2 (ciKey depth_key) with
  | .error e => .error e
  | .ok sand_unc =>
  match depth_mapping.lookup depth_key with
  | Option.none => .error (.keyError depth_key)
  | some (top_depth, bottom_depth, layer_name) =>
    .ok
      { name := layer_name
        layer_top := top_depth
        layer_bottom := bottom_depth
        sand_content := sand_pct
        silt_content := silt_pct
        clay_content := clay_pct
        metadata :=
          { sand_content :=
              { source := "DOV WMS, bdbstat:fractie_zand_basisdata_bodemkartering"
                uncertainty := sand_unc }
            silt_content :=
              { source := "DOV WMS, bdbstat:fractie_leem_basisdata_bodemkartering"
                uncertainty := silt_unc }
            clay_content :=
              { source := "DOV WMS, bdbstat:fractie_klei_basisdata_bodemkartering"
                uncertainty := clay_unc } } }

/-- The `for` loop over `depth_keys` with `layers.append(layer)`: the
first raised exception aborts the whole loop. -/
def parseLayers (properties : List (Option Props)) :
    List String → Except PyErr (List SoilLayer)
  | [] => .ok []
  | k :: ks =>
    match parseLayer properties k with
    | .error e => .error e
    | .ok layer =>
      match parseLayers properties ks with
      | .error e => .error e
      | .ok rest => .ok (layer :: rest)

/-- `DOVClient._parse_texture_response`.  `TexInput.malformed` stands
for input on which `json.loads` raises, modelled as `jsonError`. -/
def parse_texture_response (data : TexInput) : Except PyErr TextureResult :=
  match data with
  | .malformed => .error .jsonError
  | .payload json_data =>
    match json_data.features with
    | [] => .ok { layers := [] }
    | f0 :: fs =>
      let properties := (f0 :: fs).map Feature.properties
      match f0.properties with
      | Option.none => .error .typeError
      | some p0 =>
        match parseLayers properties (depthKeys p0) with
        | .error e => .error e
        | .ok layers => .ok { layers := layers }

/-! ## Elevation parsing (`GeopuntClient`) -/

/-- The whitespace characters removed by Python's `str.strip()`
(restricted to the ASCII range; no claim involves Unicode spaces). -/
def isPySpace (c : Char) : Bool :=
  c == ' ' || c == '\t' || c == '\n' || c == '\x0d' || c == '\x0b' || c == '\x0c'

/-- Python's `s.strip()`: drop leading and trailing whitespace. -/
def pyStrip (s : List Char) : List Char :=
  ((s.dropWhile isPySpace).reverse.dropWhile isPySpace).reverse

/-- Python's `s.split(sep)` for a one-character separator: the maximal
run of fields between separators (`"".split(";") == [""]`,
`"a;".split(";") == ["a", ""]`). -/
def pySplit (sep : Char) : List Char → List (List Char)
  | [] => [[]]
  | c :: cs =>
    let rest := pySplit sep cs
    if c == sep then [] :: rest
    else
      match rest with
      | [] => [[c]]
      | r :: rs => (c :: r) :: rs

/-- Split a character list at the first character satisfying `p`: the
part before it, and (when found) the part after it. -/
def splitOnFirst (p : Char → Bool) : List Char → List Char × Option (List Char)
  | [] => ([], Option.none)
  | c :: cs =>
    if p c then ([], some cs)
    else
      let (pre, post) := splitOnFirst p cs
      (c :: pre, post)

/-- Numeric value of a digit list, most significant first. -/
def digitsVal (ds : List Char) : ℕ :=
  ds.foldl (fun n c => 10 * n + (c.toNat - 48)) 0

/-- Mantissa of a decimal literal: `digits`, `digits.digits`, `digits.`
or `.digits`, with at least one digit overall.  Returned as the digit
value of the concatenated digits together with the number of fractional
digits, so the mantissa denotes `n / 10 ^ fracLen`. -/
def parseMantissa (cs : List Char) : Option (ℕ × ℕ) :=
  let (ip, fpOpt) := splitOnFirst (fun c => c == '.') cs
  let fp := fpOpt.getD []
  if ip.all Char.isDigit && fp.all Char.isDigit && !(ip.isEmpty && fp.isEmpty) then
    some (digitsVal (ip ++ fp), fp.length)
  else
    Option.none

/-- Exponent part of a decimal literal: optional sign, nonempty digits. -/
def parseExp (cs : List Char) : Option ℤ :=
  let (neg, ds) : Bool × List Char :=
    match cs with
    | '+' :: r => (false, r)
    | '-' :: r => (true, r)
    | r => (false, r)
  if !ds.isEmpty && ds.all Char.isDigit then
    some (if neg then Int.negOfNat (digitsVal ds) else Int.ofNat (digitsVal ds))
  else
    Option.none

/-- Model of Python's built-in `float(s)` on plain decimal literals,
exact over ℚ: optional sign, digits with an optional point, optional
`e`/`E` exponent; the denoted value `± n * 10 ^ (e - fracLen)` is built
with `mkRat` so that it evaluates by kernel reduction.  Returns
`Option.none` where `float` raises `ValueError` (the `inf`/`nan`
spellings and underscore separators are outside the modelled domain). -/
def pyFloat (s : List Char) : Option ℚ :=
  let (neg, cs) : Bool × List Char :=
    match s with
    | '+' :: r => (false, r)
    | '-' :: r => (true, r)
    | r => (false, r)
  let (mant, expPart) := splitOnFirst (fun c => c == 'e' || c == 'E') cs
  match parseMantissa mant with
  | Option.none => Option.none
  | some (n, fracLen) =>
    match (match expPart with
           | Option.none => some (0 : ℤ)
           | some ecs => parseExp ecs) with
    | Option.none => Option.none
    | some e =>
      let num : ℤ := if neg then Int.negOfNat n else Int.ofNat n
      let scale : ℤ := e - Int.ofNat fracLen
      if 0 ≤ scale then
        some (mkRat (num * Int.ofNat (Nat.pow 10 scale.toNat)) 1)
      else
        some (mkRat num (Nat.pow 10 (-scale).toNat))

/-- `GeopuntClient._parse_elevation_response`: strip the content, split
on `";"`, and when at least three fields are present parse the third
one (stripped) as a float; a missing field or an unparseable number
yields `None`, never an exception. -/
def parse_elevation_response (content : String) : Option ℚ :=
  let values := pySplit ';' (pyStrip content.data)
  if 3 ≤ values.length then
    match values[2]? with
    | some v => pyFloat (pyStrip v)
    | Option.none => Option.none
  else
    Option.none

/-- A Python value that can end up in the `"elevation"` slot of the
profile dict: `None`, a bare float, or the dict
`{"elevation": float-or-None}` built by `GeopuntClient.parse_feature_info`. -/
inductive PyVal where
  | pyNone
  | float (q : ℚ)
  | elevRecord (elevation : Option ℚ)
deriving DecidableEq

/-- `GeopuntClient.parse_feature_info` with the default
`query_type="elevation"`: wraps the parsed value in the dict
`{"elevation": ...}`. -/
def geopunt_parse_feature_info (content : String) : PyVal :=
  PyVal.elevRecord (parse_elevation_response content)

/-- Environment of one `GeopuntClient.fetch_elevation` call: the outcome
of the lazy WMS connection (raised exception, or the advertised layer
set) and the outcome of the GetFeatureInfo request
(`response.read().decode("utf-8")`, or a raised exception). -/
structure GeoEnv where
  connect : Except Unit (List String)
  response : Except Unit String

/-- `WMSClient.check_layer_exists`: membership of the layer name in the
connected service's advertised layer set. -/
def check_layer_exists (contents : List String) (layer_name : String) : Bool :=
  contents.contains layer_name

/-- `GeopuntClient.fetch_elevation` (as reached through the
`get_elevation` convenience wrapper).  The connection is established
lazily inside `check_layer_exists`, outside any `try`, so a connection
failure propagates as a raised exception (`.error`); a missing layer or
a failing request is converted to `None`; otherwise the call returns the
dict built by `parse_feature_info`. -/
def get_elevation (env : GeoEnv) (layer_name : String) : Except Unit PyVal :=
  match env.connect with
  | .error e => .error e
  | .ok contents =>
    if !check_layer_exists contents layer_name then .ok .pyNone
    else
      match env.response with
      | .error _ => .ok .pyNone
      | .ok content => .ok (geopunt_parse_feature_info content)

/-! ## Soil profile orchestration (`DOVClient.fetch_profile`) -/

/-- The three required upstream layer identifiers (`wms_layers`). -/
def wms_layers : List String :=
  ["bdbstat:fractie_klei_basisdata_bodemkartering",
   "bdbstat:fractie_leem_basisdata_bodemkartering",
   "bdbstat:fractie_zand_basisdata_bodemkartering"]

/-- The result dict of a successful `fetch_profile`: the parsed
`"layers"` member, and the `"elevation"` member (`Option.none` when the
key was never assigned, `some v` when `result["elevation"] = v` ran). -/
structure ProfileDict where
  layers : List SoilLayer
  elevation : Option PyVal
deriving DecidableEq

/-- Outcome of a `fetch_profile` call: the returned value (`Option.none`
models Python `None`) and whether the GetFeatureInfo network query was
issued. -/
structure FetchOutcome where
  profile : Option ProfileDict
  queryIssued : Bool
deriving DecidableEq

/-- Environment of one `DOVClient.fetch_profile` call: the connected
service's advertised layer set, the outcome of the GetFeatureInfo
request followed by `response.read()` (transport exception, or content
handed to the texture parser), and the outcome of the
`get_elevation(location, crs)` call (raised exception, or returned
value). -/
structure DOVEnv where
  contents : List String
  featureInfo : Except Unit TexInput
  elevationCall : Except Unit PyVal

/-- `DOVClient.fetch_profile`.  Each required layer is checked against
the advertised layer set before any query; a missing layer returns
`None` with no query issued.  Inside the `try` block, a transport
exception, a parser exception and an exception raised by
`get_elevation` all yield `None`; otherwise the parsed dict is
returned, with `result["elevation"]` assigned exactly when
`fetch_elevation` was requested. -/
def fetch_profile (env : DOVEnv) (fetch_elevation : Bool) : FetchOutcome :=
  if wms_layers.all (check_layer_exists env.contents) then
    match env.featureInfo with
    | .error _ => { profile := Option.none, queryIssued := true }
    | .ok raw =>
      match parse_texture_response raw with
      | .error _ => { profile := Option.none, queryIssued := true }
      | .ok result =>
        if fetch_elevation then
          match env.elevationCall with
          | .error _ => { profile := Option.none, queryIssued := true }
          | .ok elevation =>
            { profile := some { layers := result.layers, elevation := some elevation }
              queryIssued := true }
        else
          { profile := some { layers := result.layers, elevation := Option.none }
            queryIssued := true }
  else
    { profile := Option.none, queryIssued := false }

/-! ## Characterization of the success path of the texture parser -/

/-- Total lookup of a present key (the value, with an irrelevant default
for the absent case; every use is guarded by a presence hypothesis). -/
def getValD (p : Props) (k : String) : ℚ :=
  (p.lookup k).getD 0

/-- Both a depth key and its uncertainty companion are present in a
property set. -/
def HasPair (p : Props) (k : String) : Prop :=
  (p.lookup k).isSome ∧ (p.lookup (ciKey k)).isSome

instance (p : Props) (k : String) : Decidable (HasPair p k) :=
  inferInstanceAs (Decidable (_ ∧ _))

/-- The layer dict the parser builds for depth key `k` out of the clay
(feature 0), silt (feature 1) and sand (feature 2) property sets — the
expected value of one iteration of the loop when every lookup succeeds. -/
def mkLayer (p0 p1 p2 : Props) (k : String) : SoilLayer :=
  let info := (depth_mapping.lookup k).getD (0, 0, "")
  { name := info.2.2
    layer_top := info.1
    layer_bottom := info.2.1
    sand_content := getValD p2 k
    silt_content := getValD p1 k
    clay_content := getValD p0 k
    metadata :=
      { sand_content :=
          { source := "DOV WMS, bdbstat:fractie_zand_basisdata_bodemkartering"
            uncertainty := getValD p2 (ciKey k) }
        silt_content :=
          { source := "DOV WMS, bdbstat:fractie_leem_basisdata_bodemkartering"
            uncertainty := getValD p1 (ciKey k) }
        clay_content :=
          { source := "DOV WMS, bdbstat:fractie_klei_basisdata_bodemkartering"
            uncertainty := getValD p0 (ciKey k) } } }

/-- The fixed enumeration of layer names from the specification. -/
def layerNames : List String :=
  ["Layer_0-10cm", "Layer_10-30cm", "Layer_30-60cm", "Layer_60-100cm", "Layer_100-150cm"]

/-- A fully valid three-feature texture payload, as the upstream service
contract describes it: exactly three features (clay, silt, sand), each
carrying a property dict with unique keys, every non-uncertainty key of
the first feature present in the fixed depth mapping, and every such key
present together with its uncertainty companion in all three property
sets. -/
structure ValidTexture (pl : Payload) (p0 p1 p2 : Props) : Prop where
  features_eq : pl.features.map Feature.properties = [some p0, some p1, some p2]
  nodup0 : (p0.map Prod.fst).Nodup
  mapped : ∀ k ∈ depthKeys p0, (depth_mapping.lookup k).isSome
  pairs0 : ∀ k ∈ depthKeys p0, HasPair p0 k
  pairs1 : ∀ k ∈ depthKeys p0, HasPair p1 k
  pairs2 : ∀ k ∈ depthKeys p0, HasPair p2 k

/-! ## Concrete inputs

Small concrete payloads and environments, used to evaluate the embedded
functions at specific inputs. -/

/-- Clay-fraction feature properties of a one-band response. -/
def clayProps : Props := [("_0_-_10_cm", 4), ("_0_-_10_cm_betrouwbaarheid", 1)]

/-- Silt-fraction feature properties of a one-band response. -/
def siltProps : Props := [("_0_-_10_cm", 22), ("_0_-_10_cm_betrouwbaarheid", 2)]

/-- Sand-fraction feature properties of a one-band response. -/
def sandProps : Props := [("_0_-_10_cm", 74), ("_0_-_10_cm_betrouwbaarheid", 3)]

/-- A valid three-feature payload with a single depth band. -/
def smallPayload : Payload :=
  { features := [{ properties := some clayProps },
                 { properties := some siltProps },
                 { properties := some sandProps }] }

/-- The layer the parser builds from `smallPayload`. -/
def smallLayer : SoilLayer :=
  { name := "Layer_0-10cm"
    layer_top := 0
    layer_bottom := 10
    sand_content := 74
    silt_content := 22
    clay_content := 4
    metadata :=
      { sand_content :=
          { source := "DOV WMS, bdbstat:fractie_zand_basisdata_bodemkartering", uncertainty := 3 }
        silt_content :=
          { source := "DOV WMS, bdbstat:fractie_leem_basisdata_bodemkartering", uncertainty := 2 }
        clay_content :=
          { source := "DOV WMS, bdbstat:fractie_klei_basisdata_bodemkartering", uncertainty := 1 } } }

/-- Property set holding all five depth bands with their companions
(one feature of the fixture payload of the repository's test suite). -/
def fiveBandProps (a b c d e ua ub uc ud ue : ℚ) : Props :=
  [("_0_-_10_cm", a), ("_10_-_30_cm", b), ("_30_-_60_cm", c),
   ("_60_-_100_cm", d), ("_100_-_150_cm", e),
   ("_0_-_10_cm_betrouwbaarheid", ua), ("_10_-_30_cm_betrouwbaarheid", ub),
   ("_30_-_60_cm_betrouwbaarheid", uc), ("_60_-_100_cm_betrouwbaarheid", ud),
   ("_100_-_150_cm_betrouwbaarheid", ue)]

/-- A valid three-feature payload with all five depth bands. -/
def fiveBandPayload : Payload :=
  { features := [{ properties := some (fiveBandProps 3 3 3 4 5 1 1 1 2 1) },
                 { properties := some (fiveBandProps 22 21 23 17 12 1 3 1 2 1) },
                 { properties := some (fiveBandProps 72 72 76 77 81 1 1 1 2 3) }] }

/-- Property set with the five depth bands in reversed (deepest-first)
iteration order. -/
def reversedProps (a b c d e : ℚ) : Props :=
  [("_100_-_150_cm", a), ("_60_-_100_cm", b), ("_30_-_60_cm", c),
   ("_10_-_30_cm", d), ("_0_-_10_cm", e),
   ("_100_-_150_cm_betrouwbaarheid", 1), ("_60_-_100_cm_betrouwbaarheid", 1),
   ("_30_-_60_cm_betrouwbaarheid", 1), ("_10_-_30_cm_betrouwbaarheid", 1),
   ("_0_-_10_cm_betrouwbaarheid", 1)]

/-- A valid payload whose raw key order is deepest band first. -/
def reversedPayload : Payload :=
  { features := [{ properties := some (reversedProps 6 4 3 3 3) },
                 { properties := some (reversedProps 12 17 23 21 22) },
                 { properties := some (reversedProps 81 77 76 72 72) }] }

/-- Properties containing a depth-band key absent from the fixed
mapping, with its uncertainty companion. -/
def unknownBandProps : Props := [("_5_-_7_cm", 10), ("_5_-_7_cm_betrouwbaarheid", 1)]

/-- A three-feature payload whose depth-band key is not in the fixed
mapping. -/
def unknownBandPayload : Payload :=
  { features := [{ properties := some unknownBandProps },
                 { properties := some unknownBandProps },
                 { properties := some unknownBandProps }] }

/-- A three-feature payload whose second feature lacks the uncertainty
companion of the present depth key. -/
def missingCiPayload : Payload :=
  { features := [{ properties := some clayProps },
                 { properties := some [("_0_-_10_cm", 22)] },
                 { properties := some sandProps }] }

/-- A payload carrying only the clay feature (fewer than three
features), with complete properties. -/
def oneFeaturePayload : Payload :=
  { features := [{ properties := some clayProps }] }

/-- A Geopunt environment whose connection and request succeed, with
the documented upstream response shape. -/
def geoEnvOk : GeoEnv :=
  { connect := .ok ["DHMVII_DTM_1m"]
    response := .ok "@DHMVII_DTM_1m Stretched value;Pixel Value; 32.360001;32.360001;" }

/-- A DOV environment where everything succeeds: all three layers
advertised, the texture query returns `smallPayload`, and the elevation
sub-call is the (successful) `get_elevation` on `geoEnvOk`. -/
def dovEnvOk : DOVEnv :=
  { contents := wms_layers
    featureInfo := .ok (.payload smallPayload)
    elevationCall := get_elevation geoEnvOk "DHMVII_DTM_1m" }

/-- A DOV environment where the texture query succeeds but the
elevation sub-call raises an exception. -/
def dovEnvElevRaises : DOVEnv :=
  { contents := wms_layers
    featureInfo := .ok (.payload smallPayload)
    elevationCall := .error () }

/-- A DOV environment where the texture query succeeds and the
elevation sub-call returns `None` (its non-raising failure mode). -/
def dovEnvElevNone : DOVEnv :=
  { contents := wms_layers
    featureInfo := .ok (.payload smallPayload)
    elevationCall := .ok .pyNone }

/-! ## Helper lemmas -/

/-- A successful association-list lookup returns a stored pair. -/
theorem lookup_mem {α β : Type} [BEq α] [LawfulBEq α] {l : List (α × β)} {k : α} {v : β}
    (h : l.lookup k = some v) : (k, v) ∈ l := by
  induction l with
  | nil => simp [List.lookup] at h
  | cons a l ih =>
    obtain ⟨k', v'⟩ := a
    rw [List.lookup] at h
    split at h
    · next heq =>
      obtain rfl := eq_of_beq heq
      cases h
      exact List.mem_cons_self _ _
    · exact List.mem_cons_of_mem _ (ih h)

/-- Every entry of the fixed depth map has `top < bottom` and a name
from the fixed enumeration. -/
theorem depth_mapping_sound {k : String} {info : ℕ × ℕ × String}
    (h : depth_mapping.lookup k = some info) :
    info.1 < info.2.1 ∧ info.2.2 ∈ layerNames := by
  have hm := lookup_mem h
  simp only [depth_mapping, List.mem_cons, List.not_mem_nil, or_false] at hm
  rcases hm with h' | h' | h' | h' | h' <;> rw [Prod.mk.injEq] at h' <;>
    rcases h' with ⟨-, rfl⟩ <;> decide

/-- When every lookup of one loop iteration succeeds, the iteration
produces exactly the characterized layer dict. -/
theorem parseLayer_eq_mkLayer {p0 p1 p2 : Props} {k : String}
    (h0 : HasPair p0 k) (h1 : HasPair p1 k) (h2 : HasPair p2 k)
    (hm : (depth_mapping.lookup k).isSome) :
    parseLayer [some p0, some p1, some p2] k = .ok (mkLayer p0 p1 p2 k) := by
  obtain ⟨c0, hc0⟩ := Option.isSome_iff_exists.mp h0.1
  obtain ⟨u0, hu0⟩ := Option.isSome_iff_exists.mp h0.2
  obtain ⟨c1, hc1⟩ := Option.isSome_iff_exists.mp h1.1
  obtain ⟨u1, hu1⟩ := Option.isSome_iff_exists.mp h1.2
  obtain ⟨c2, hc2⟩ := Option.isSome_iff_exists.mp h2.1
  obtain ⟨u2, hu2⟩ := Option.isSome_iff_exists.mp h2.2
  obtain ⟨⟨t, b, n⟩, hinfo⟩ := Option.isSome_iff_exists.mp hm
  simp [parseLayer, getFeatureProps, getKey, mkLayer, getValD,
    hc0, hu0, hc1, hu1, hc2, hu2, hinfo]

/-- If every iteration of the loop succeeds with the characterized
layer, the loop returns the mapped list. -/
theorem parseLayers_eq_map {properties : List (Option Props)}
    {f : String → SoilLayer} :
    ∀ {ks : List String}, (∀ k ∈ ks, parseLayer properties k = .ok (f k)) →
      parseLayers properties ks = .ok (ks.map f)
  | [], _ => rfl
  | k :: ks, h => by
    have hk := h k (List.mem_cons_self _ _)
    have hks := parseLayers_eq_map (fun k' hk' => h k' (List.mem_cons_of_mem _ hk'))
    simp [parseLayers, hk, hks]

/-- On a fully valid three-feature payload the parser succeeds and
returns exactly one characterized layer per non-uncertainty key of the
first feature, in key order. -/
theorem parse_texture_valid {pl : Payload} {p0 p1 p2 : Props}
    (hv : ValidTexture pl p0 p1 p2) :
    parse_texture_response (.payload pl) =
      .ok { layers := (depthKeys p0).map (mkLayer p0 p1 p2) } := by
  obtain ⟨f0, f1, f2, hfe, h0, h1, h2⟩ :
      ∃ f0 f1 f2, pl.features = [f0, f1, f2] ∧ f0.properties = some p0 ∧
        f1.properties = some p1 ∧ f2.properties = some p2 := by
    have := hv.features_eq
    match hpl : pl.features with
    | [g0, g1, g2] =>
      rw [hpl] at this
      simp only [List.map_cons, List.map_nil, List.cons.injEq, and_true] at this
      exact ⟨g0, g1, g2, rfl, this.1, this.2.1, this.2.2⟩
    | [] | [_] | [_, _] | _ :: _ :: _ :: _ :: _ => rw [hpl] at this; simp at this
  have hlayers : parseLayers [some p0, some p1, some p2] (depthKeys p0) =
      .ok ((depthKeys p0).map (mkLayer p0 p1 p2)) :=
    parseLayers_eq_map (fun k hk =>
      parseLayer_eq_mkLayer (hv.pairs0 k hk) (hv.pairs1 k hk) (hv.pairs2 k hk)
        (hv.mapped k hk))
  rw [parse_texture_response, hfe]
  simp only [List.map_cons, List.map_nil, h0, h1, h2, hlayers]

/-- A successful `getKey` means the key is stored with that value. -/
theorem getKey_ok_iff {p : Props} {k : String} {v : ℚ} :
    getKey p k = .ok v ↔ p.lookup k = some v := by
  rw [getKey]
  constructor
  · intro h
    split at h
    · next v' hv' => cases h; exact hv'
    · cases h
  · intro h
    rw [h]

/-- A successful `getFeatureProps` means the index is in range and the
feature carries a property dict. -/
theorem getFeatureProps_ok_iff {ps : List (Option Props)} {i : ℕ} {p : Props} :
    getFeatureProps ps i = .ok p ↔ ps[i]? = some (some p) := by
  rw [getFeatureProps]
  constructor
  · intro h
    split at h
    · cases h
    · cases h
    · next p' hp' => cases h; exact hp'
  · intro h
    rw [h]

/-- `getFeatureProps` raises `IndexError` exactly on an out-of-range
index. -/
theorem getFeatureProps_indexError_iff {ps : List (Option Props)} {i : ℕ} :
    getFeatureProps ps i = .error .indexError ↔ ps.length ≤ i := by
  rw [getFeatureProps, ← List.getElem?_eq_none_iff]
  match h : ps[i]? with
  | Option.none => simp
  | some Option.none => simp
  | some (some p) => simp

/-- Inversion of a successful loop iteration: every consulted feature
is in range with a property dict holding both the depth key and its
uncertainty companion, and the key is in the fixed depth map. -/
theorem parseLayer_ok_inv {properties : List (Option Props)} {k : String} {l : SoilLayer}
    (h : parseLayer properties k = .ok l) :
    (∃ q0, getFeatureProps properties 0 = .ok q0 ∧
       (q0.lookup k).isSome ∧ (q0.lookup (ciKey k)).isSome) ∧
    (∃ q1, getFeatureProps properties 1 = .ok q1 ∧
       (q1.lookup k).isSome ∧ (q1.lookup (ciKey k)).isSome) ∧
    (∃ q2, getFeatureProps properties 2 = .ok q2 ∧
       (q2.lookup k).isSome ∧ (q2.lookup (ciKey k)).isSome) ∧
    (depth_mapping.lookup k).isSome := by
  rw [parseLayer] at h
  split at h
  · cases h
  next q0 h0 =>
  split at h
  · cases h
  next c0 hc0 =>
  split at h
  · cases h
  next u0 hu0 =>
  split at h
  · cases h
  next q1 h1 =>
  split at h
  · cases h
  next c1 hc1 =>
  split at h
  · cases h
  next u1 hu1 =>
  split at h
  · cases h
  next q2 h2 =>
  split at h
  · cases h
  next c2 hc2 =>
  split at h
  · cases h
  next u2 hu2 =>
  split at h
  · cases h
  next info hinfo =>
  exact
    ⟨⟨q0, h0, by rw [getKey_ok_iff.mp hc0]; rfl, by rw [getKey_ok_iff.mp hu0]; rfl⟩,
     ⟨q1, h1, by rw [getKey_ok_iff.mp hc1]; rfl, by rw [getKey_ok_iff.mp hu1]; rfl⟩,
     ⟨q2, h2, by rw [getKey_ok_iff.mp hc2]; rfl, by rw [getKey_ok_iff.mp hu2]; rfl⟩,
     by rw [hinfo]; rfl⟩

/-- A loop iteration raises `IndexError` only when fewer than three
features were available. -/
theorem parseLayer_indexError_length {properties : List (Option Props)} {k : String}
    (h : parseLayer properties k = .error .indexError) :
    properties.length < 3 := by
  rw [parseLayer] at h
  split at h
  · next e he =>
    cases h
    exact Nat.lt_of_le_of_lt (getFeatureProps_indexError_iff.mp he) (by omega)
  split at h
  · next e he =>
    cases h
    rw [getKey] at he
    split at he
    · cases he
    · cases he
  split at h
  · next e he =>
    cases h
    rw [getKey] at he
    split at he
    · cases he
    · cases he
  split at h
  · next e he =>
    cases h
    exact Nat.lt_of_le_of_lt (getFeatureProps_indexError_iff.mp he) (by omega)
  split at h
  · next e he =>
    cases h
    rw [getKey] at he
    split at he
    · cases he
    · cases he
  split at h
  · next e he =>
    cases h
    rw [getKey] at he
    split at he
    · cases he
    · cases he
  split at h
  · next e he =>
    cases h
    exact Nat.lt_of_le_of_lt (getFeatureProps_indexError_iff.mp he) (by omega)
  split at h
  · next e he =>
    cases h
    rw [getKey] at he
    split at he
    · cases he
    · cases he
  split at h
  · next e he =>
    cases h
    rw [getKey] at he
    split at he
    · cases he
    · cases he
  split at h
  · cases h
  · cases h

/-- Inversion of a successful loop: every key's iteration succeeded. -/
theorem parseLayers_ok_forall {properties : List (Option Props)} :
    ∀ {ks : List String} {ls : List SoilLayer},
      parseLayers properties ks = .ok ls →
      ∀ k ∈ ks, ∃ l, parseLayer properties k = .ok l := by
  intro ks
  induction ks with
  | nil =>
    intro ls _ k hk
    exact absurd hk (List.not_mem_nil k)
  | cons k' ks ih =>
    intro ls h k hk
    rw [parseLayers] at h
    split at h
    · cases h
    next layer hlayer =>
    split at h
    · cases h
    next rest hrest =>
    rcases List.mem_cons.mp hk with rfl | hk'
    · exact ⟨layer, hlayer⟩
    · exact ih hrest k hk'

/-- A failing loop fails at some key's iteration, with the same
exception. -/
theorem parseLayers_error_exists {properties : List (Option Props)} :
    ∀ {ks : List String} {e : PyErr},
      parseLayers properties ks = .error e →
      ∃ k ∈ ks, parseLayer properties k = .error e := by
  intro ks
  induction ks with
  | nil =>
    intro e h
    cases h
  | cons k' ks ih =>
    intro e h
    rw [parseLayers] at h
    split at h
    · next e' he' =>
      cases h
      exact ⟨k', List.mem_cons_self _ _, he'⟩
    next layer hlayer =>
    split at h
    · next e' he' =>
      cases h
      obtain ⟨k, hk, hke⟩ := ih he'
      exact ⟨k, List.mem_cons_of_mem _ hk, hke⟩
    · cases h

/-- On a nonempty feature list whose first feature has a property dict
the parser reduces to the loop over the depth keys. -/
theorem parse_payload_eq {pl : Payload} {f0 : Feature} {fs : List Feature} {p0 : Props}
    (hf : pl.features = f0 :: fs) (hp : f0.properties = some p0) :
    parse_texture_response (.payload pl) =
      match parseLayers ((f0 :: fs).map Feature.properties) (depthKeys p0) with
      | .error e => .error e
      | .ok layers => .ok { layers := layers } := by
  rw [parse_texture_response, hf]
  simp only [hp]

/-! ## Claims -/

/-- C1: for every valid three-feature JSON payload whose first feature
has `N` non-uncertainty keys, all in the fixed depth mapping (validity,
per the upstream contract, also means each such key and its uncertainty
companion are present in every feature's property set), the parser
returns a profile with exactly `N` layers, each with
`layer_top < layer_bottom` and a name from the fixed enumeration. -/
theorem texture_valid_layer_count_and_bounds {pl : Payload} {p0 p1 p2 : Props} {N : ℕ}
    (hv : ValidTexture pl p0 p1 p2) (hN : (depthKeys p0).length = N) :
    ∃ layers, parse_texture_response (.payload pl) = .ok { layers := layers } ∧
      layers.length = N ∧
      ∀ l ∈ layers, l.layer_top < l.layer_bottom ∧ l.name ∈ layerNames := by
  refine ⟨(depthKeys p0).map (mkLayer p0 p1 p2), parse_texture_valid hv,
    by simpa using hN, ?_⟩
  intro l hl
  rw [List.mem_map] at hl
  obtain ⟨k, hk, rfl⟩ := hl
  obtain ⟨⟨t, b, n⟩, hinfo⟩ := Option.isSome_iff_exists.mp (hv.mapped k hk)
  have hs := depth_mapping_sound hinfo
  simp only [mkLayer, hinfo, Option.getD_some]
  exact hs

/-- Witness for C1: the five-band fixture payload yields exactly five
layers of the required shape. -/
theorem texture_valid_layer_count_and_bounds_witness :
    (depthKeys (fiveBandProps 3 3 3 4 5 1 1 1 2 1)).length = 5 ∧
    ∃ layers, parse_texture_response (.payload fiveBandPayload) = .ok { layers := layers } ∧
      layers.length = 5 ∧
      ∀ l ∈ layers, l.layer_top < l.layer_bottom ∧ l.name ∈ layerNames :=
  ⟨by decide,
   @texture_valid_layer_count_and_bounds fiveBandPayload
     (fiveBandProps 3 3 3 4 5 1 1 1 2 1)
     (fiveBandProps 22 21 23 17 12 1 3 1 2 1)
     (fiveBandProps 72 72 76 77 81 1 1 1 2 3) 5
     { features_eq := rfl
       nodup0 := by decide
       mapped := by decide
       pairs0 := by decide
       pairs1 := by decide
       pairs2 := by decide }
     (by decide)⟩

/-- C7: on a valid payload, the i-th layer's clay content is the value
of the i-th depth key in feature 0, silt in feature 1, sand in feature
2; each uncertainty comes from the companion key on the same feature;
each source is the fixed per-content string. -/
theorem texture_content_assignment {pl : Payload} {p0 p1 p2 : Props}
    (hv : ValidTexture pl p0 p1 p2) :
    ∃ layers, parse_texture_response (.payload pl) = .ok { layers := layers } ∧
      layers.length = (depthKeys p0).length ∧
      ∀ (i : ℕ) (hi : i < layers.length) (hi2 : i < (depthKeys p0).length),
        (layers.get ⟨i, hi⟩).clay_content = getValD p0 ((depthKeys p0).get ⟨i, hi2⟩) ∧
        (layers.get ⟨i, hi⟩).silt_content = getValD p1 ((depthKeys p0).get ⟨i, hi2⟩) ∧
        (layers.get ⟨i, hi⟩).sand_content = getValD p2 ((depthKeys p0).get ⟨i, hi2⟩) ∧
        (layers.get ⟨i, hi⟩).metadata.clay_content.uncertainty =
          getValD p0 (ciKey ((depthKeys p0).get ⟨i, hi2⟩)) ∧
        (layers.get ⟨i, hi⟩).metadata.silt_content.uncertainty =
          getValD p1 (ciKey ((depthKeys p0).get ⟨i, hi2⟩)) ∧
        (layers.get ⟨i, hi⟩).metadata.sand_content.uncertainty =
          getValD p2 (ciKey ((depthKeys p0).get ⟨i, hi2⟩)) ∧
        (layers.get ⟨i, hi⟩).metadata.clay_content.source =
          "DOV WMS, bdbstat:fractie_klei_basisdata_bodemkartering" ∧
        (layers.get ⟨i, hi⟩).metadata.silt_content.source =
          "DOV WMS, bdbstat:fractie_leem_basisdata_bodemkartering" ∧
        (layers.get ⟨i, hi⟩).metadata.sand_content.source =
          "DOV WMS, bdbstat:fractie_zand_basisdata_bodemkartering" := by
  refine ⟨(depthKeys p0).map (mkLayer p0 p1 p2), parse_texture_valid hv, by simp, ?_⟩
  intro i hi hi2
  have hget : ((depthKeys p0).map (mkLayer p0 p1 p2)).get ⟨i, hi⟩ =
      mkLayer p0 p1 p2 ((depthKeys p0).get ⟨i, hi2⟩) := by
    simp [List.get_eq_getElem, List.getElem_map]
  rw [hget]
  exact ⟨rfl, rfl, rfl, rfl, rfl, rfl, rfl, rfl, rfl⟩

/-- Witness for C7 at the one-band payload. -/
theorem texture_content_assignment_witness :
    ∃ layers, parse_texture_response (.payload smallPayload) = .ok { layers := layers } ∧
      layers.length = (depthKeys clayProps).length ∧
      ∀ (i : ℕ) (hi : i < layers.length) (hi2 : i < (depthKeys clayProps).length),
        (layers.get ⟨i, hi⟩).clay_content = getValD clayProps ((depthKeys clayProps).get ⟨i, hi2⟩) ∧
        (layers.get ⟨i, hi⟩).silt_content = getValD siltProps ((depthKeys clayProps).get ⟨i, hi2⟩) ∧
        (layers.get ⟨i, hi⟩).sand_content = getValD sandProps ((depthKeys clayProps).get ⟨i, hi2⟩) ∧
        (layers.get ⟨i, hi⟩).metadata.clay_content.uncertainty =
          getValD clayProps (ciKey ((depthKeys clayProps).get ⟨i, hi2⟩)) ∧
        (layers.get ⟨i, hi⟩).metadata.silt_content.uncertainty =
          getValD siltProps (ciKey ((depthKeys clayProps).get ⟨i, hi2⟩)) ∧
        (layers.get ⟨i, hi⟩).metadata.sand_content.uncertainty =
          getValD sandProps (ciKey ((depthKeys clayProps).get ⟨i, hi2⟩)) ∧
        (layers.get ⟨i, hi⟩).metadata.clay_content.source =
          "DOV WMS, bdbstat:fractie_klei_basisdata_bodemkartering" ∧
        (layers.get ⟨i, hi⟩).metadata.silt_content.source =
          "DOV WMS, bdbstat:fractie_leem_basisdata_bodemkartering" ∧
        (layers.get ⟨i, hi⟩).metadata.sand_content.source =
          "DOV WMS, bdbstat:fractie_zand_basisdata_bodemkartering" :=
  @texture_content_assignment smallPayload clayProps siltProps sandProps
    { features_eq := rfl
      nodup0 := by decide
      mapped := by decide
      pairs0 := by decide
      pairs1 := by decide
      pairs2 := by decide }

/-- C8: the produced layer sequence follows the iteration order of the
non-uncertainty keys of the first feature's property set (the raw
payload's field order), not a depth-sorted order. -/
theorem texture_layer_order {pl : Payload} {p0 p1 p2 : Props}
    (hv : ValidTexture pl p0 p1 p2) :
    ∃ layers, parse_texture_response (.payload pl) = .ok { layers := layers } ∧
      layers.map SoilLayer.name =
        (depthKeys p0).map (fun k => ((depth_mapping.lookup k).getD (0, 0, "")).2.2) := by
  refine ⟨(depthKeys p0).map (mkLayer p0 p1 p2), parse_texture_valid hv, ?_⟩
  rw [List.map_map]
  rfl

/-- Witness for C8: a payload listing the bands deepest-first yields
the layers deepest-first — raw order, not sorted depth order. -/
theorem texture_layer_order_witness :
    ∃ layers, parse_texture_response (.payload reversedPayload) = .ok { layers := layers } ∧
      layers.map SoilLayer.name =
        ["Layer_100-150cm", "Layer_60-100cm", "Layer_30-60cm", "Layer_10-30cm",
         "Layer_0-10cm"] := by
  obtain ⟨layers, h1, h2⟩ :=
    @texture_layer_order reversedPayload (reversedProps 6 4 3 3 3)
      (reversedProps 12 17 23 21 22) (reversedProps 81 77 76 72 72)
      { features_eq := rfl
        nodup0 := by decide
        mapped := by decide
        pairs0 := by decide
        pairs1 := by decide
        pairs2 := by decide }
  exact ⟨layers, h1, h2.trans (by decide)⟩

/-- C9: a well-formed payload with an empty (or absent, which
`json_data.get("features", [])` also maps to the empty list) feature
list parses to a profile with an empty layer sequence, not an error. -/
theorem empty_features_empty_layers {pl : Payload} (h : pl.features = []) :
    parse_texture_response (.payload pl) = .ok { layers := [] } := by
  rw [parse_texture_response, h]

/-- Witness for C9 at the empty feature list. -/
theorem empty_features_empty_layers_witness :
    (Payload.mk []).features = [] ∧
    parse_texture_response (.payload (Payload.mk [])) = .ok { layers := [] } :=
  ⟨rfl, empty_features_empty_layers rfl⟩

/-- C4: the texture parser fails with an exception on malformed JSON;
when a non-uncertainty key of the first feature is not in the fixed
depth mapping (never silently dropped); and when the uncertainty
companion of a present depth key is missing from one of the three
consulted features. -/
theorem texture_parser_failure_cases :
    parse_texture_response .malformed = .error .jsonError ∧
    (∀ (pl : Payload) (f0 : Feature) (fs : List Feature) (p0 : Props) (k : String),
      pl.features = f0 :: fs → f0.properties = some p0 → k ∈ depthKeys p0 →
      depth_mapping.lookup k = Option.none →
      ∃ e, parse_texture_response (.payload pl) = .error e) ∧
    (∀ (pl : Payload) (f0 : Feature) (fs : List Feature) (p0 : Props) (k : String)
       (j : ℕ) (pj : Props),
      pl.features = f0 :: fs → f0.properties = some p0 → k ∈ depthKeys p0 →
      j < 3 → getFeatureProps ((f0 :: fs).map Feature.properties) j = .ok pj →
      pj.lookup (ciKey k) = Option.none →
      ∃ e, parse_texture_response (.payload pl) = .error e) := by
  refine ⟨rfl, ?_, ?_⟩
  · intro pl f0 fs p0 k hf hp hk hmap
    have hpe := parse_payload_eq hf hp
    cases hps : parseLayers ((f0 :: fs).map Feature.properties) (depthKeys p0) with
    | error e =>
      rw [hps] at hpe
      exact ⟨e, hpe⟩
    | ok ls =>
      obtain ⟨l, hl⟩ := parseLayers_ok_forall hps k hk
      have hsome := (parseLayer_ok_inv hl).2.2.2
      rw [hmap] at hsome
      simp at hsome
  · intro pl f0 fs p0 k j pj hf hp hk hj hgfp hci
    have hpe := parse_payload_eq hf hp
    cases hps : parseLayers ((f0 :: fs).map Feature.properties) (depthKeys p0) with
    | error e =>
      rw [hps] at hpe
      exact ⟨e, hpe⟩
    | ok ls =>
      obtain ⟨l, hl⟩ := parseLayers_ok_forall hps k hk
      obtain ⟨inv0, inv1, inv2, -⟩ := parseLayer_ok_inv hl
      interval_cases j
      · obtain ⟨q, hq, -, hqs⟩ := inv0
        rw [hgfp] at hq
        injection hq with hq'
        subst hq'
        rw [hci] at hqs
        simp at hqs
      · obtain ⟨q, hq, -, hqs⟩ := inv1
        rw [hgfp] at hq
        injection hq with hq'
        subst hq'
        rw [hci] at hqs
        simp at hqs
      · obtain ⟨q, hq, -, hqs⟩ := inv2
        rw [hgfp] at hq
        injection hq with hq'
        subst hq'
        rw [hci] at hqs
        simp at hqs

/-- Witness for C4: malformed input, the unknown band `_5_-_7_cm`, and
a second feature lacking `_0_-_10_cm_betrouwbaarheid` all fail. -/
theorem texture_parser_failure_cases_witness :
    parse_texture_response .malformed = .error .jsonError ∧
    (∃ e, parse_texture_response (.payload unknownBandPayload) = .error e) ∧
    (∃ e, parse_texture_response (.payload missingCiPayload) = .error e) :=
  ⟨texture_parser_failure_cases.1,
   texture_parser_failure_cases.2.1 unknownBandPayload
     { properties := some unknownBandProps }
     [{ properties := some unknownBandProps }, { properties := some unknownBandProps }]
     unknownBandProps "_5_-_7_cm" rfl rfl (by decide) (by decide),
   texture_parser_failure_cases.2.2 missingCiPayload
     { properties := some clayProps }
     [{ properties := some [("_0_-_10_cm", 22)] }, { properties := some sandProps }]
     clayProps "_0_-_10_cm" 1 [("_0_-_10_cm", 22)] rfl rfl (by decide) (by decide) rfl
     (by decide)⟩

/-- C10: the feature-index accesses are in range when at least three
features are carried (no `IndexError`); a well-formed payload (complete
property dicts on the present features) with one or two features and at
least one depth key makes the parser fail with an `IndexError` instead
of returning a partial profile — the three-feature assumption is
enforced only by this failure. -/
theorem texture_feature_index_safety :
    (∀ pl : Payload, 3 ≤ pl.features.length →
       parse_texture_response (.payload pl) ≠ .error .indexError) ∧
    (∀ (pl : Payload) (f0 : Feature) (fs : List Feature) (p0 : Props),
       pl.features = f0 :: fs → pl.features.length < 3 → f0.properties = some p0 →
       (∀ f ∈ pl.features, ∃ p, f.properties = some p ∧
          ∀ k ∈ depthKeys p0, (p.lookup k).isSome ∧ (p.lookup (ciKey k)).isSome) →
       depthKeys p0 ≠ [] →
       parse_texture_response (.payload pl) = .error .indexError) := by
  constructor
  · intro pl h3 hcontra
    cases hpl : pl.features with
    | nil =>
      rw [hpl] at h3
      simp at h3
    | cons f0 fs =>
      cases hp : f0.properties with
      | none =>
        rw [parse_texture_response, hpl] at hcontra
        simp only [hp] at hcontra
        cases hcontra
      | some p0 =>
        have hpe := parse_payload_eq hpl hp
        cases hps : parseLayers ((f0 :: fs).map Feature.properties) (depthKeys p0) with
        | ok ls =>
          rw [hps] at hpe
          rw [hpe] at hcontra
          cases hcontra
        | error e =>
          rw [hps] at hpe
          rw [hpe] at hcontra
          injection hcontra with he
          subst he
          obtain ⟨k, -, hke⟩ := parseLayers_error_exists hps
          have hlen := parseLayer_indexError_length hke
          rw [List.length_map] at hlen
          rw [hpl] at h3
          exact absurd h3 (by omega)
  · intro pl f0 fs p0 hf hlt hp0 hprops hne
    obtain ⟨k, ks, hdk⟩ : ∃ k ks, depthKeys p0 = k :: ks := by
      cases hdke : depthKeys p0 with
      | nil => exact absurd hdke hne
      | cons k ks => exact ⟨k, ks, rfl⟩
    have hk0 : k ∈ depthKeys p0 := by
      rw [hdk]
      exact List.mem_cons_self _ _
    have hpair0 : (p0.lookup k).isSome ∧ (p0.lookup (ciKey k)).isSome := by
      obtain ⟨p, hp, hpairs⟩ := hprops f0 (by rw [hf]; exact List.mem_cons_self _ _)
      rw [hp0] at hp
      injection hp with hp'
      subst hp'
      exact hpairs k hk0
    obtain ⟨c0, hc0⟩ := Option.isSome_iff_exists.mp hpair0.1
    obtain ⟨u0, hu0⟩ := Option.isSome_iff_exists.mp hpair0.2
    rw [hf, List.length_cons] at hlt
    match fs, hlt with
    | [], _ =>
      have hlayer : parseLayer [some p0] k = .error .indexError := by
        rw [parseLayer]
        simp [getFeatureProps, getKey, hc0, hu0]
      have hloop : parseLayers [some p0] (k :: ks) = .error .indexError := by
        rw [parseLayers, hlayer]
      have hpe := parse_payload_eq hf hp0
      rw [hdk] at hpe
      simp only [List.map_cons, List.map_nil, hp0, hloop] at hpe
      exact hpe
    | [f1], _ =>
      have hpair1 : (∃ p1, f1.properties = some p1 ∧
          (p1.lookup k).isSome ∧ (p1.lookup (ciKey k)).isSome) := by
        obtain ⟨p, hp, hpairs⟩ := hprops f1 (by rw [hf]; simp)
        exact ⟨p, hp, hpairs k hk0⟩
      obtain ⟨p1, hp1, hs1⟩ := hpair1
      obtain ⟨c1, hc1⟩ := Option.isSome_iff_exists.mp hs1.1
      obtain ⟨u1, hu1⟩ := Option.isSome_iff_exists.mp hs1.2
      have hlayer : parseLayer [some p0, some p1] k = .error .indexError := by
        rw [parseLayer]
        simp [getFeatureProps, getKey, hc0, hu0, hc1, hu1]
      have hloop : parseLayers [some p0, some p1] (k :: ks) = .error .indexError := by
        rw [parseLayers, hlayer]
      have hpe := parse_payload_eq hf hp0
      rw [hdk] at hpe
      simp only [List.map_cons, List.map_nil, hp0, hp1, hloop] at hpe
      exact hpe
    | f1 :: f2 :: fs2, h => exact absurd h (by simp)

/-- Witness for C10: the three-feature payload never yields an
`IndexError`, while the one-feature payload with a complete property
dict yields exactly an `IndexError`. -/
theorem texture_feature_index_safety_witness :
    (3 ≤ smallPayload.features.length ∧
     parse_texture_response (.payload smallPayload) ≠ .error .indexError) ∧
    parse_texture_response (.payload oneFeaturePayload) = .error .indexError :=
  ⟨⟨by decide, texture_feature_index_safety.1 smallPayload (by decide)⟩,
   texture_feature_index_safety.2 oneFeaturePayload { properties := some clayProps } []
     clayProps rfl (by decide) rfl
     (by
       intro f hf
       simp only [oneFeaturePayload, List.mem_singleton] at hf
       subst hf
       exact ⟨clayProps, rfl, by decide⟩)
     (by decide)⟩

/-- C5: the elevation parser strips the content, splits on semicolons,
takes the field at index 2, strips it and parses it as a float,
returning `None` (not an error) when fewer than three fields are
present or the field is not a valid number; on the documented upstream
shape it yields 32.360001 and on `"garbage"` it yields `None`. -/
theorem parse_elevation_spec :
    (∀ content : String,
       parse_elevation_response content =
         match (pySplit ';' (pyStrip content.data))[2]? with
         | some v => pyFloat (pyStrip v)
         | Option.none => Option.none) ∧
    parse_elevation_response
      "@DHMVII_DTM_1m Stretched value;Pixel Value; 32.360001;32.360001;" =
      some (mkRat 32360001 1000000) ∧
    (mkRat 32360001 1000000 : ℚ) = 32360001 / 1000000 ∧
    parse_elevation_response "garbage" = Option.none := by
  refine ⟨?_, by decide, by rw [Rat.mkRat_eq_div]; norm_num, by decide⟩
  intro content
  rw [parse_elevation_response]
  split
  · rfl
  · next h =>
    have h2 : (pySplit ';' (pyStrip content.data))[2]? = Option.none :=
      List.getElem?_eq_none (by omega)
    rw [h2]

/-- C6: when one of the three required layer identifiers is absent from
the advertised layer set, `fetch_profile` returns `None` without
issuing the feature-info query. -/
theorem missing_layer_returns_none_without_query {env : DOVEnv} {b : Bool}
    (h : ∃ l ∈ wms_layers, l ∉ env.contents) :
    fetch_profile env b = { profile := Option.none, queryIssued := false } := by
  obtain ⟨l, hl, hnot⟩ := h
  have hfalse : wms_layers.all (check_layer_exists env.contents) = false := by
    rw [List.all_eq_false]
    refine ⟨l, hl, ?_⟩
    rw [check_layer_exists]
    simpa using hnot
  rw [fetch_profile, hfalse]
  rfl

/-- Witness for C6: an empty advertised layer set. -/
theorem missing_layer_returns_none_without_query_witness :
    (∃ l ∈ wms_layers,
       l ∉ (DOVEnv.mk [] (.ok .malformed) (.ok .pyNone)).contents) ∧
    fetch_profile (DOVEnv.mk [] (.ok .malformed) (.ok .pyNone)) true =
      { profile := Option.none, queryIssued := false } :=
  ⟨by decide, missing_layer_returns_none_without_query (by decide)⟩

/-- C2 counterexample: with the three layers advertised, a texture
query that parses to one populated layer, and an elevation sub-fetch
that fails by raising, `fetch_profile` returns `None` — not a profile
with the parsed layers and an absent elevation, as the claim states. -/
theorem elevation_raise_returns_none :
    parse_texture_response (.payload smallPayload) = .ok { layers := [smallLayer] } ∧
    fetch_profile dovEnvElevRaises true =
      { profile := Option.none, queryIssued := true } :=
  ⟨rfl, rfl⟩

/-- C2 (amended): when the elevation sub-fetch fails by returning
`None` (its designed failure mode), the profile is returned with the
parsed layers and the elevation recorded as `None`; when the sub-fetch
fails by raising an exception, the whole call returns `None`. -/
theorem elevation_failure_modes {env : DOVEnv} {inp : TexInput} {tex : TextureResult}
    (hlayers : wms_layers.all (check_layer_exists env.contents) = true)
    (hfi : env.featureInfo = .ok inp)
    (hparse : parse_texture_response inp = .ok tex) :
    (env.elevationCall = .ok .pyNone →
       fetch_profile env true =
         { profile := some { layers := tex.layers, elevation := some .pyNone }
           queryIssued := true }) ∧
    (∀ e : Unit, env.elevationCall = .error e →
       fetch_profile env true = { profile := Option.none, queryIssued := true }) := by
  constructor
  · intro helev
    rw [fetch_profile, if_pos hlayers, hfi]
    simp only [hparse, helev]
    rfl
  · intro e helev
    rw [fetch_profile, if_pos hlayers, hfi]
    simp only [hparse, helev]
    rfl

/-- Witness for C2 (amended) at a concrete environment whose elevation
sub-call returns `None`. -/
theorem elevation_failure_modes_witness :
    (dovEnvElevNone.elevationCall = .ok .pyNone →
       fetch_profile dovEnvElevNone true =
         { profile := some { layers := [smallLayer], elevation := some .pyNone }
           queryIssued := true }) ∧
    (∀ e : Unit, dovEnvElevNone.elevationCall = .error e →
       fetch_profile dovEnvElevNone true =
         { profile := Option.none, queryIssued := true }) :=
  elevation_failure_modes (by decide) rfl rfl

/-- C3 (code-bug evidence): on a fully successful elevation fetch the
value merged into the profile's `"elevation"` slot is the structured
record `{"elevation": 32.360001}` built by the Geopunt feature-info
parser — not the bare float the specification (and the Geopunt client's
own docstring and test) describe. -/
theorem elevation_field_is_record :
    get_elevation geoEnvOk "DHMVII_DTM_1m" =
      .ok (.elevRecord (some (mkRat 32360001 1000000))) ∧
    fetch_profile dovEnvOk true =
      { profile := some
          { layers := [smallLayer]
            elevation := some (.elevRecord (some (mkRat 32360001 1000000))) }
        queryIssued := true } ∧
    (mkRat 32360001 1000000 : ℚ) = 32360001 / 1000000 ∧
    ∀ q : ℚ,
      PyVal.elevRecord (some (mkRat 32360001 1000000)) ≠ PyVal.float q :=
  ⟨rfl, by decide, by rw [Rat.mkRat_eq_div]; norm_num, fun q h => by cases h⟩

end Dovwms
